import Mathlib

/-!
Verification of the blind-comparison encode/decode protocol of the
DeepSink user-study repository.

The development shallowly embeds the relevant Python code:

* `create_comparison_videos.py` — the comparison-set builder that randomly
  assigns the two models to labels A and B and writes the order sheet
  (`create_comparison_video`, `create_comparison_set`);
* `data/aggregate_results.py` — `UserStudyAggregator.parse_order_sheet`,
  `decode_response`, `process_single_result_file`, `aggregate_results`;
* `data/collect_simple_fixed.py` — `parse_order_sheet`, `decode_choice`,
  `analyze_results_with_order_sheets`;
* `data/collect_github_results.py` — the pair-name-splitting decode inside
  `analyze_results` and its win/total bookkeeping;
* `data/aggregate_results_from_github.py` —
  `GitHubIssuesAggregator.process_user_responses`.

Python string primitives (`str.replace`, `str.split`, `str.strip`,
`str.find`, the `in` operator, slicing) are modelled by executable
functions over `List Char` defined below, so that every definition can be
evaluated on concrete inputs by `decide`.
-/

/-! ### Python string primitives -/

/-- Python `str.strip()`: remove leading and trailing whitespace. -/
def pyStrip (s : String) : String :=
  String.mk (((s.data.dropWhile Char.isWhitespace).reverse.dropWhile Char.isWhitespace).reverse)

/-- `hasSub pat l` is Python `pat in l` on character lists: `pat` occurs as a
contiguous substring of `l`. -/
def hasSub (pat : List Char) : List Char → Bool
  | [] => pat.isEmpty
  | c :: t => pat.isPrefixOf (c :: t) || hasSub pat t

/-- Python `pat in s` for strings. -/
def hasSubStr (s pat : String) : Bool := hasSub pat.data s.data

/-- Index of the first occurrence of `pat` in `l`, if any
(Python `str.find`, with `none` for `-1`). -/
def findSubIdx (pat : List Char) : List Char → Option Nat
  | [] => if pat.isEmpty then some 0 else none
  | c :: t => if pat.isPrefixOf (c :: t) then some 0 else (findSubIdx pat t).map (· + 1)

/-- Python `s.find(pat, start)`: first occurrence of `pat` at index ≥ `start`
(absolute index), `none` for `-1`. -/
def pyFindFrom (l pat : List Char) (start : Nat) : Option Nat :=
  (findSubIdx pat (l.drop start)).map (· + start)

/-- Fuel-driven worker for `pyReplace`; the fuel is an upper bound on the
number of characters still to be scanned. -/
def pyReplaceAux (pat rep : List Char) : Nat → List Char → List Char
  | _, [] => []
  | 0, l => l
  | fuel + 1, c :: t =>
    if pat.isPrefixOf (c :: t) then
      rep ++ pyReplaceAux pat rep fuel (t.drop (pat.length - 1))
    else
      c :: pyReplaceAux pat rep fuel t

/-- Python `s.replace(pat, rep)`: replace every non-overlapping occurrence of
`pat` in `s` by `rep`, scanning left to right.  The callers in this
repository never pass an empty pattern; for an empty pattern the string is
returned unchanged. -/
def pyReplace (s pat rep : String) : String :=
  if pat.data.isEmpty then s
  else String.mk (pyReplaceAux pat.data rep.data s.data.length s.data)

/-- Fuel-driven worker for `pySplitStr`. -/
def pySplitAux (sep : List Char) : Nat → List Char → List (List Char)
  | 0, l => [l]
  | fuel + 1, l =>
    match findSubIdx sep l with
    | none => [l]
    | some i => l.take i :: pySplitAux sep fuel (l.drop (i + sep.length))

/-- Python `s.split(sep)` with a non-empty separator: split at every
occurrence of `sep`, keeping empty fields. -/
def pySplitStr (s sep : String) : List String :=
  if sep.data.isEmpty then [s]
  else (pySplitAux sep.data (s.data.length + 1) s.data).map String.mk

/-- Python slice `l[start:stop]` on character lists (both bounds clamped). -/
def pySlice (l : List Char) (start stop : Nat) : List Char :=
  (l.take stop).drop start

/-! ### Data model

An order-sheet mapping is a Python dict from video filename to the
`{model_a, model_b}` record; we represent the dict as an insertion-ordered
association list where later insertions shadow earlier ones. -/

/-- One order-sheet value: the model shown as label A and the model shown as
label B (the dict `{'model_a': ..., 'model_b': ...}` of the Python code). -/
structure OrderInfo where
  model_a : String
  model_b : String
deriving DecidableEq

/-- A parsed order sheet: Python dict `{filename -> OrderInfo}`. -/
abbrev OrderMapping := List (String × OrderInfo)

/-- Python dict assignment `m[k] = v` (append; lookup takes the last match). -/
def dictSet (m : OrderMapping) (k : String) (v : OrderInfo) : OrderMapping :=
  m ++ [(k, v)]

/-- Python dict lookup `m[k]` / membership test: the most recent binding. -/
def findKey (m : OrderMapping) (k : String) : Option OrderInfo :=
  m.foldl (fun acc p => if p.1 = k then some p.2 else acc) none

/-- The Python loop that tries lookup keys in order and keeps the first hit:
`for key in possible_keys: if key in mapping: take mapping[key]; break`. -/
def firstHit (m : OrderMapping) : List String → Option OrderInfo
  | [] => none
  | k :: ks =>
    match findKey m k with
    | some i => some i
    | none => firstHit m ks

/-- The aggregator's collection of order sheets: Python dict
`{comparison_name -> OrderMapping}`. -/
abbrev OrderSheets := List (String × OrderMapping)

/-- Dict lookup on the order-sheet collection (last binding wins). -/
def findSheet (s : OrderSheets) (k : String) : Option OrderMapping :=
  s.foldl (fun acc p => if p.1 = k then some p.2 else acc) none

/-! ### Comparison-set builder (`create_comparison_videos.py`) -/

/-- `create_comparison_video` (lines 72–82): for placement `order`
(`true` = `'left'`), the returned `(model_a, model_b)` labels.  With
`'left'` the subject video renders on the left, so label A is `'deepsink'`;
otherwise label A is `'baseline'`. -/
def create_comparison_video_labels (orderLeft : Bool) : String × String :=
  if orderLeft then ("deepsink", "baseline") else ("baseline", "deepsink")

/-- One entry of the builder's `order_sheet_entries` list. -/
structure SheetEntry where
  filename : String
  model_a : String
  model_b : String
deriving DecidableEq

/-- `create_comparison_set` (lines 188–211): map the generic
`deepsink`/`baseline` labels to actual model names and collect one sheet
entry per successfully rendered video.  `videos` lists, per rendered video,
its filename and the random placement (`true` = subject on the left). -/
def order_sheet_entries (baseline_name : String) (videos : List (String × Bool)) :
    List SheetEntry :=
  videos.map fun v =>
    let ab := create_comparison_video_labels v.2
    if ab.1 = "deepsink" then
      ⟨v.1, "deepsink", baseline_name⟩
    else
      ⟨v.1, baseline_name, "deepsink"⟩

/-- The order-sheet line written for one entry (line 223):
`f"{filename}: Model A = {model_a}, Model B = {model_b}"`. -/
def entryLine (e : SheetEntry) : String :=
  e.filename ++ ": Model A = " ++ e.model_a ++ ", Model B = " ++ e.model_b

/-- The full order-sheet file written by `create_comparison_set`
(lines 214–223), as the list of lines `readlines` recovers. -/
def order_sheet_file_lines (comparison_name baseline_name : String)
    (videos : List (String × Bool)) : List String :=
  ["Blind Test Order Sheet for " ++ comparison_name,
   String.mk (List.replicate 50 '='),
   "Original Method A: deepsink",
   "Original Method B: " ++ baseline_name,
   "",
   "Randomized Order (filename -> Model A = ?, Model B = ?):",
   String.mk (List.replicate 50 '-')]
  ++ (order_sheet_entries baseline_name videos).map entryLine

/-- The label the builder assigned to model `m` in sheet entry `e`:
`"A"` when `e` records `m` as Model A, otherwise `"B"`. -/
def labelAssignedTo (e : SheetEntry) (m : String) : String :=
  if e.model_a = m then "A" else "B"

/-! ### Order-sheet parser of `aggregate_results.py` (lines 80–108) -/

/-- Worker for `UserStudyAggregator.parse_order_sheet`: fold over the lines;
a malformed `', Model B = '` split (more than two fields) raises in Python
and the surrounding handler returns the mapping built so far. -/
def parse_order_sheet_aux : List String → OrderMapping → OrderMapping
  | [], acc => acc
  | line :: rest, acc =>
    let l := pyStrip line
    if hasSubStr l ":" && hasSubStr l "Model A =" then
      match pySplitStr l ": Model A = " with
      | [fnPart, infoPart] =>
        let filename := pyStrip fnPart
        let order_info := pyStrip infoPart
        if hasSubStr order_info ", Model B = " then
          match pySplitStr order_info ", Model B = " with
          | [a, b] =>
            parse_order_sheet_aux rest (dictSet acc filename ⟨pyStrip a, pyStrip b⟩)
          | _ => acc
        else parse_order_sheet_aux rest acc
      | _ => parse_order_sheet_aux rest acc
    else parse_order_sheet_aux rest acc

/-- `UserStudyAggregator.parse_order_sheet`: filename → order mapping. -/
def parse_order_sheet (lines : List String) : OrderMapping :=
  parse_order_sheet_aux lines []

/-! ### Order-sheet parser of `collect_simple_fixed.py` (lines 47–89) -/

/-- Lines 72–80 of `collect_simple_fixed.py`: extract `model_a` and
`model_b` from the part of a sheet line after the first `':'`, using
Python `find` and slicing (a missing end marker yields Python's `[-1]`
slice bound, i.e. one character before the end). -/
def extract_models (mapping_part : String) : OrderInfo :=
  let d := mapping_part.data
  let model_a_start := (findSubIdx "Model A = ".data d).getD 0 + 10
  let model_b_start := (findSubIdx "Model B = ".data d).getD 0 + 10
  let model_a_end : Option Nat :=
    match pyFindFrom d ",".data model_a_start with
    | some i => some i
    | none => pyFindFrom d " Model B".data model_a_start
  let stop := match model_a_end with
    | some e => e
    | none => d.length - 1
  let model_a := pyStrip (String.mk (pySlice d model_a_start stop))
  let model_b := pyStrip (String.mk (d.drop model_b_start))
  ⟨model_a, model_b⟩

/-- Lines 82–87 of `collect_simple_fixed.py`: store the entry under both the
filename as written in the sheet and the derived `<base>_comparison.mp4`
variant. -/
def store_order_entry (acc : OrderMapping) (filename : String) (info : OrderInfo) :
    OrderMapping :=
  let base_filename := pyReplace filename ".mp4" ""
  let comparison_filename := base_filename ++ "_comparison.mp4"
  dictSet (dictSet acc filename info) comparison_filename info

/-- Worker for the `collect_simple_fixed.py` parser: the mapping section
starts after a line containing `"Randomized Order"`. -/
def parse_order_sheet_simple_aux : List String → Bool → OrderMapping → OrderMapping
  | [], _, acc => acc
  | line :: rest, inSec, acc =>
    let l := pyStrip line
    if hasSubStr l "Randomized Order" then
      parse_order_sheet_simple_aux rest true acc
    else if inSec && hasSubStr l ":" && hasSubStr l "Model A" then
      match pySplitStr l ":" with
      | fnPart :: mappingPart :: _ =>
        let filename := pyStrip fnPart
        let mapping_part := pyStrip mappingPart
        if hasSubStr mapping_part "Model A = " && hasSubStr mapping_part "Model B = " then
          parse_order_sheet_simple_aux rest inSec
            (store_order_entry acc filename (extract_models mapping_part))
        else parse_order_sheet_simple_aux rest inSec acc
      | _ => parse_order_sheet_simple_aux rest inSec acc
    else parse_order_sheet_simple_aux rest inSec acc

/-- `parse_order_sheet` of `collect_simple_fixed.py`. -/
def parse_order_sheet_simple (lines : List String) : OrderMapping :=
  parse_order_sheet_simple_aux lines false []

/-! ### Decoders -/

/-- The candidate keys `decode_response` tries, in order (lines 116–124 of
`aggregate_results.py`): the suffix-stripped name, the filename as given,
the stripped name with `_comparison.mp4` appended, and the stripped name
with `_comparison` removed. -/
def possible_keys_agg (video_filename : String) : List String :=
  let video_key := pyReplace video_filename ".mp4" ""
  [video_key,
   video_filename,
   video_key ++ "_comparison.mp4",
   pyReplace video_key "_comparison" ""]

/-- `UserStudyAggregator.decode_response` (lines 110–145): returns the
Python triple `(chosen_method, other_method, status)`, with the status
strings exactly as the source formats them. -/
def decode_response (order_sheets : OrderSheets)
    (comparison_name video_filename choice : String) :
    Option String × Option String × String :=
  match findSheet order_sheets comparison_name with
  | none => (none, none, "No order sheet found")
  | some sheet =>
    match firstHit sheet (possible_keys_agg video_filename) with
    | none => (none, none, "Video " ++ video_filename ++ " not found in order sheet")
    | some order_info =>
      if choice = "A" then
        (some order_info.model_a, some order_info.model_b, "success")
      else if choice = "B" then
        (some order_info.model_b, some order_info.model_a, "success")
      else
        (none, none, "Invalid choice: " ++ choice)

/-- The candidate keys `decode_choice` tries, in order (lines 100–105 of
`collect_simple_fixed.py`). -/
def possible_keys_simple (video_filename : String) : List String :=
  [video_filename,
   pyReplace video_filename "_comparison.mp4" ".mp4",
   pyReplace video_filename ".mp4" "" ++ ".mp4",
   pyReplace video_filename "_comparison" ""]

/-- `decode_choice` of `collect_simple_fixed.py` (lines 91–122): returns
`(chosen, other)` on success and `None, None` (here `none`) on a missing
sheet, a missing mapping, or a choice outside `{"A","B"}`. -/
def decode_choice (order_sheets : OrderSheets)
    (comparison_name video_filename choice : String) :
    Option (String × String) :=
  match findSheet order_sheets comparison_name with
  | none => none
  | some order_mapping =>
    match firstHit order_mapping (possible_keys_simple video_filename) with
    | none => none
    | some mapping =>
      if choice = "A" then some (mapping.model_a, mapping.model_b)
      else if choice = "B" then some (mapping.model_b, mapping.model_a)
      else none

/-- The order-sheet-ignoring decode of
`GitHubResultsCollector.analyze_results` (`collect_github_results.py`
lines 173–183): split the comparison-set name on `"_vs_"` and take the
left component for choice `"A"`, the right one for `"B"`. -/
def analyze_split_decode (comparison_set choice : String) :
    Option (String × String) :=
  if choice = "A" ∨ choice = "B" then
    match pySplitStr comparison_set "_vs_" with
    | [m1, m2] => if choice = "A" then some (m1, m2) else some (m2, m1)
    | _ => none
  else none

/-! ### Aggregation (`aggregate_results.py`) -/

/-- One row of the decoded-response list built by
`process_single_result_file` (lines 167–175 of `aggregate_results.py`). -/
structure DecodedResponse where
  participant_id : String
  comparison_name : String
  video_filename : String
  choice : String
  chosen_method : Option String
  other_method : Option String
  decode_status : String
deriving DecidableEq

/-- `process_single_result_file` (lines 147–177): decode every
`(comparison, video, choice)` of one participant's `responses` dict and
keep every outcome, success or failure, with its status. -/
def process_responses (order_sheets : OrderSheets) (participant_id : String)
    (responses : List (String × List (String × String))) : List DecodedResponse :=
  responses.flatMap fun cv =>
    cv.2.map fun vc =>
      let r := decode_response order_sheets cv.1 vc.1 vc.2
      ⟨participant_id, cv.1, vc.1, vc.2, r.1, r.2.1, r.2.2⟩

/-- The `successful_df` filter of `aggregate_results`
(line 207: `df[df['decode_status'] == 'success']`). -/
def successful_responses (rs : List DecodedResponse) : List DecodedResponse :=
  rs.filter fun r => r.decode_status == "success"

/-- Summary field `total_responses` (line 215). -/
def summary_total (rs : List DecodedResponse) : Nat := rs.length

/-- Summary field `successful_decodes` (line 216). -/
def summary_successful (rs : List DecodedResponse) : Nat :=
  (successful_responses rs).length

/-- Summary field `failed_decodes` (line 217: `len(df) - len(successful_df)`). -/
def summary_failed (rs : List DecodedResponse) : Nat :=
  rs.length - (successful_responses rs).length

/-- `method_preferences` wins (lines 227–231):
`Counter(successful_df['chosen_method'])[m]`. -/
def mp_wins (rs : List DecodedResponse) (m : String) : Nat :=
  (successful_responses rs).countP fun r => r.chosen_method = some m

/-- `method_preferences` total (lines 228–233): every reported method gets
`total_comparisons = len(successful_df)`, the global number of successfully
decoded responses. -/
def mp_total (rs : List DecodedResponse) : Nat :=
  (successful_responses rs).length

/-- A method appears in the `method_preferences` report iff the `Counter`
holds it, i.e. iff it won at least once. -/
@[reducible] def mp_reported (rs : List DecodedResponse) (m : String) : Prop :=
  1 ≤ mp_wins rs m

/-- The number of successfully decoded choices in which model `m` appeared
(as the chosen or as the other model). -/
def mp_appearances (rs : List DecodedResponse) (m : String) : Nat :=
  (successful_responses rs).countP fun r =>
    r.chosen_method = some m ∨ r.other_method = some m

/-- Win rate as computed throughout the repository:
`wins / total if total > 0 else 0`. -/
def win_rate (wins total : Nat) : ℚ :=
  if total = 0 then 0 else (wins : ℚ) / (total : ℚ)

/-! ### Win/total bookkeeping of the collectors

`analyze_results_with_order_sheets` (`collect_simple_fixed.py`
lines 224–235) and `GitHubResultsCollector.analyze_results`
(`collect_github_results.py` lines 180–183) run the same loop over decoded
`(chosen_model, other_model)` pairs:
`model_wins[chosen] += 1; model_total[chosen] += 1; model_total[other] += 1`. -/

/-- `model_wins[m]` after folding the decoded choices. -/
def model_wins : List (String × String) → String → Nat
  | [], _ => 0
  | co :: rest, m => (if co.1 = m then 1 else 0) + model_wins rest m

/-- `model_total[m]` after folding the decoded choices. -/
def model_total : List (String × String) → String → Nat
  | [], _ => 0
  | co :: rest, m =>
    (if co.1 = m then 1 else 0) + (if co.2 = m then 1 else 0) + model_total rest m

/-! ### GitHub-issues aggregation (`aggregate_results_from_github.py`) -/

/-- The per-video response payload of a response record: either the legacy
raw `"A"`/`"B"` string or the structured `{'answers': {question: choice}}`
object (lines 124–145 of `aggregate_results_from_github.py`). -/
inductive ResponseData where
  | raw (choice : String)
  | answers (qs : List (String × String))
deriving DecidableEq

/-- One row of the list built by
`GitHubIssuesAggregator.process_user_responses`. -/
structure QResponse where
  participant_id : String
  comparison_name : String
  video_filename : String
  question_name : String
  choice : String
  chosen_method : Option String
  other_method : Option String
  decode_status : String
deriving DecidableEq

/-- `GitHubIssuesAggregator.process_user_responses` (lines 112–161): decode
every answer, but append a row only when the decode status is `"success"`
— failed decodes are dropped from the returned list. -/
def process_user_responses (order_sheets : OrderSheets) (participant_id : String)
    (responses : List (String × List (String × ResponseData))) : List QResponse :=
  responses.flatMap fun cv =>
    cv.2.flatMap fun vr =>
      match vr.2 with
      | .answers qs =>
        qs.flatMap fun qc =>
          if qc.2 = "A" ∨ qc.2 = "B" then
            let r := decode_response order_sheets cv.1 vr.1 qc.2
            if r.2.2 = "success" then
              [⟨participant_id, cv.1, vr.1, qc.1, qc.2, r.1, r.2.1, r.2.2⟩]
            else []
          else []
      | .raw s =>
        if s = "A" ∨ s = "B" then
          let r := decode_response order_sheets cv.1 vr.1 s
          if r.2.2 = "success" then
            [⟨participant_id, cv.1, vr.1, "overall_quality", s, r.1, r.2.1, r.2.2⟩]
          else []
        else []

/-! ### Helper lemmas -/

/-- Unfolding `decode_response` once the sheet and the key lookup are fixed. -/
theorem decode_response_of_hit (sheets : OrderSheets) (pair fn choice : String)
    (sheet : OrderMapping) (info : OrderInfo)
    (h1 : findSheet sheets pair = some sheet)
    (h2 : firstHit sheet (possible_keys_agg fn) = some info) :
    decode_response sheets pair fn choice =
      if choice = "A" then (some info.model_a, some info.model_b, "success")
      else if choice = "B" then (some info.model_b, some info.model_a, "success")
      else (none, none, "Invalid choice: " ++ choice) := by
  simp only [decode_response, h1, h2]

/-- Unfolding `decode_choice` once the sheet and the key lookup are fixed. -/
theorem decode_choice_of_hit (sheets : OrderSheets) (pair fn choice : String)
    (sheet : OrderMapping) (info : OrderInfo)
    (h1 : findSheet sheets pair = some sheet)
    (h2 : firstHit sheet (possible_keys_simple fn) = some info) :
    decode_choice sheets pair fn choice =
      if choice = "A" then some (info.model_a, info.model_b)
      else if choice = "B" then some (info.model_b, info.model_a)
      else none := by
  simp only [decode_choice, h1, h2]

/-- Two strings with distinct first characters are distinct. -/
theorem string_ne_of_head (x y : String) (cx cy : Char)
    (hx : x.data.head? = some cx) (hy : y.data.head? = some cy)
    (hne : cx ≠ cy) : x ≠ y := by
  intro h
  rw [h] at hx
  rw [hx] at hy
  exact hne (Option.some.inj hy)

/-- Appending distinct strings to a common front yields distinct strings. -/
theorem append_ne_append_right (a : String) {b c : String} (h : b ≠ c) :
    a ++ b ≠ a ++ c := by
  intro he
  apply h
  have h2 : a.data ++ b.data = a.data ++ c.data := congrArg String.data he
  exact String.ext (List.append_cancel_left h2)

/-- A string differs from itself extended by a non-empty suffix. -/
theorem string_self_ne_append (a b : String) (hb : b ≠ "") : a ≠ a ++ b := by
  intro h
  apply hb
  have h2 : a.data.length = a.data.length + b.data.length := by
    have := congrArg (fun s => s.data.length) h
    simpa using this
  have h3 : b.data.length = 0 := by omega
  exact String.ext (List.length_eq_zero.mp h3)

/-- In the bookkeeping of the collectors, a model's wins never exceed its
total appearances. -/
theorem model_wins_le_model_total (choices : List (String × String)) (m : String) :
    model_wins choices m ≤ model_total choices m := by
  induction choices with
  | nil => simp [model_wins, model_total]
  | cons co rest ih =>
    simp only [model_wins, model_total]
    have : (if co.1 = m then 1 else 0) ≤
        (if co.1 = m then 1 else 0) + (if co.2 = m then 1 else 0) := Nat.le_add_right _ _
    omega

/-- `win_rate` is never negative. -/
theorem win_rate_nonneg (w t : Nat) : 0 ≤ win_rate w t := by
  unfold win_rate
  split
  · exact le_refl 0
  · positivity

/-- `win_rate` is at most one when wins are bounded by the total. -/
theorem win_rate_le_one (w t : Nat) (h : w ≤ t) : win_rate w t ≤ 1 := by
  unfold win_rate
  split
  · exact zero_le_one
  · rename_i ht
    have ht' : (0 : ℚ) < t := by
      have : 0 < t := Nat.pos_of_ne_zero ht
      exact_mod_cast this
    rw [div_le_one ht']
    exact_mod_cast h

/-! ### Claims -/

/-- C3: for every order-sheet entry the lookup resolves to, `decode_response`
maps choice "A" to `(model_a, model_b)`, choice "B" to `(model_b, model_a)`,
and any other choice to the invalid-choice error triple rather than a
model. -/
theorem decode_response_scenario (sheets : OrderSheets) (pair fn : String)
    (sheet : OrderMapping) (info : OrderInfo)
    (h1 : findSheet sheets pair = some sheet)
    (h2 : firstHit sheet (possible_keys_agg fn) = some info) :
    decode_response sheets pair fn "A" = (some info.model_a, some info.model_b, "success") ∧
    decode_response sheets pair fn "B" = (some info.model_b, some info.model_a, "success") ∧
    ∀ c, c ≠ "A" → c ≠ "B" →
      decode_response sheets pair fn c = (none, none, "Invalid choice: " ++ c) := by
  refine ⟨?_, ?_, ?_⟩
  · rw [decode_response_of_hit sheets pair fn "A" sheet info h1 h2]
    simp
  · rw [decode_response_of_hit sheets pair fn "B" sheet info h1 h2]
    rw [if_neg (by decide), if_pos rfl]
  · intro c hA hB
    rw [decode_response_of_hit sheets pair fn c sheet info h1 h2]
    rw [if_neg hA, if_neg hB]

/-- C3 witness: the order sheet line `"v1: Model A = foo, Model B = bar"`,
choices "A", "B" and "C". -/
theorem decode_response_scenario_witness :
    decode_response [("p", parse_order_sheet ["v1: Model A = foo, Model B = bar"])]
        "p" "v1" "A" = (some "foo", some "bar", "success") ∧
    decode_response [("p", parse_order_sheet ["v1: Model A = foo, Model B = bar"])]
        "p" "v1" "B" = (some "bar", some "foo", "success") ∧
    decode_response [("p", parse_order_sheet ["v1: Model A = foo, Model B = bar"])]
        "p" "v1" "C" = (none, none, "Invalid choice: C") := by
  have h := decode_response_scenario
    [("p", parse_order_sheet ["v1: Model A = foo, Model B = bar"])] "p" "v1"
    (parse_order_sheet ["v1: Model A = foo, Model B = bar"]) ⟨"foo", "bar"⟩
    (by decide) (by decide)
  refine ⟨h.1, h.2.1, ?_⟩
  have h3 := h.2.2 "C" (by decide) (by decide)
  rw [h3]
  decide

/-- C4 counterexample: with an order sheet keyed on the bare identity
`"clip_01"`, `decode_choice` of `collect_simple_fixed.py` finds no mapping
for the request `"clip_01.mp4"` (none of its candidate keys matches),
although the same sheet resolves the request `"clip_01"`; so the three
lookups do not all resolve to the entry as the claim states. -/
theorem filename_normalization_counterexample :
    decode_choice
        [("p", parse_order_sheet_simple ["Randomized Order:", "clip_01: Model A = foo, Model B = bar"])]
        "p" "clip_01.mp4" "A" = none ∧
    decode_choice
        [("p", parse_order_sheet_simple ["Randomized Order:", "clip_01: Model A = foo, Model B = bar"])]
        "p" "clip_01" "A" = some ("foo", "bar") := by
  decide

/-- C4 amended: with an order sheet keyed on the bare identity `"clip_01"`,
`decode_response` of `aggregate_results.py` resolves all three requests
`"clip_01.mp4"`, `"clip_01"` and `"clip_01_comparison.mp4"` to that same
entry; `decode_choice` of `collect_simple_fixed.py` (whose parser stores
the key and its `_comparison.mp4` variant) resolves `"clip_01"` and
`"clip_01_comparison.mp4"` but returns no mapping for `"clip_01.mp4"`. -/
theorem filename_normalization_amended (a b : String) :
    decode_response [("p", [("clip_01", ⟨a, b⟩)])] "p" "clip_01.mp4" "A"
      = (some a, some b, "success") ∧
    decode_response [("p", [("clip_01", ⟨a, b⟩)])] "p" "clip_01" "A"
      = (some a, some b, "success") ∧
    decode_response [("p", [("clip_01", ⟨a, b⟩)])] "p" "clip_01_comparison.mp4" "A"
      = (some a, some b, "success") ∧
    decode_choice [("p", store_order_entry [] "clip_01" ⟨a, b⟩)] "p" "clip_01" "A"
      = some (a, b) ∧
    decode_choice [("p", store_order_entry [] "clip_01" ⟨a, b⟩)] "p" "clip_01_comparison.mp4" "A"
      = some (a, b) ∧
    decode_choice [("p", store_order_entry [] "clip_01" ⟨a, b⟩)] "p" "clip_01.mp4" "A"
      = none :=
  ⟨rfl, rfl, rfl, rfl, rfl, rfl⟩

/-- C5 counterexample: when the sheet holds entries for both the exact
filename `"clip_01.mp4"` and its suffix-stripped form `"clip_01"`,
`decode_response` returns the entry of the stripped form, not of the exact
filename: the stripped candidate is tried first. -/
theorem lookup_priority_counterexample :
    decode_response
        [("p", parse_order_sheet
            ["clip_01: Model A = foo, Model B = bar",
             "clip_01.mp4: Model A = baz, Model B = qux"])]
        "p" "clip_01.mp4" "A" = (some "foo", some "bar", "success") ∧
    decode_response
        [("p", parse_order_sheet
            ["clip_01: Model A = foo, Model B = bar",
             "clip_01.mp4: Model A = baz, Model B = qux"])]
        "p" "clip_01.mp4" "A" ≠ (some "baz", some "qux", "success") := by
  decide

/-- C5 amended: the lookup tries the candidate keys in the fixed order
suffix-stripped form first, then the exact requested filename, then the
stripped form with `_comparison.mp4` appended, then the stripped form with
`_comparison` removed; consequently, whenever the suffix-stripped key is
present in the sheet, its entry is the one decoded, even when the exact
filename is also a key. -/
theorem lookup_priority_amended (sheets : OrderSheets) (pair fn : String)
    (sheet : OrderMapping) (info : OrderInfo)
    (h1 : findSheet sheets pair = some sheet)
    (h2 : findKey sheet (pyReplace fn ".mp4" "") = some info) :
    possible_keys_agg fn =
      [pyReplace fn ".mp4" "", fn,
       pyReplace fn ".mp4" "" ++ "_comparison.mp4",
       pyReplace (pyReplace fn ".mp4" "") "_comparison" ""] ∧
    decode_response sheets pair fn "A" = (some info.model_a, some info.model_b, "success") := by
  refine ⟨rfl, ?_⟩
  have hhit : firstHit sheet (possible_keys_agg fn) = some info := by
    simp [possible_keys_agg, firstHit, h2]
  rw [decode_response_of_hit sheets pair fn "A" sheet info h1 hhit]
  simp

/-- C5 amended witness: the two-entry sheet of the counterexample. -/
theorem lookup_priority_amended_witness :
    decode_response
        [("p", parse_order_sheet
            ["clip_01: Model A = foo, Model B = bar",
             "clip_01.mp4: Model A = baz, Model B = qux"])]
        "p" "clip_01.mp4" "A" = (some "foo", some "bar", "success") :=
  (lookup_priority_amended
    [("p", parse_order_sheet
        ["clip_01: Model A = foo, Model B = bar",
         "clip_01.mp4: Model A = baz, Model B = qux"])]
    "p" "clip_01.mp4"
    (parse_order_sheet
        ["clip_01: Model A = foo, Model B = bar",
         "clip_01.mp4: Model A = baz, Model B = qux"])
    ⟨"foo", "bar"⟩ (by decide) (by decide)).2

/-- C6: when the order sheet is keyed `"<id>.mp4"` (the form
`create_comparison_set` writes), `decode_response` fails with the not-found
status for the request `"<id>_comparison.mp4"` — none of its candidate keys
equals `"<id>.mp4"` — while `decode_choice` succeeds for the same request,
because the `collect_simple_fixed.py` parser also stored the
`"<id>_comparison.mp4"` key.  The hypotheses pin down the Python
`str.replace` computations for an identity that contains neither `".mp4"`
nor `"_comparison"`. -/
theorem suffix_keyed_divergence (id pair : String) (info : OrderInfo)
    (h0 : pyReplace (id ++ ".mp4") ".mp4" "" = id)
    (h1 : pyReplace (id ++ "_comparison.mp4") ".mp4" "" = id ++ "_comparison")
    (h2 : pyReplace (id ++ "_comparison") "_comparison" "" = id) :
    decode_response [(pair, [(id ++ ".mp4", info)])] pair (id ++ "_comparison.mp4") "A"
      = (none, none, "Video " ++ (id ++ "_comparison.mp4") ++ " not found in order sheet") ∧
    decode_choice [(pair, store_order_entry [] (id ++ ".mp4") info)] pair
        (id ++ "_comparison.mp4") "A"
      = some (info.model_a, info.model_b) := by
  have d1 : id ++ ".mp4" ≠ id ++ "_comparison" := append_ne_append_right id (by decide)
  have d2 : id ++ ".mp4" ≠ id ++ "_comparison.mp4" := append_ne_append_right id (by decide)
  have d3 : id ++ ".mp4" ≠ id ++ "_comparison" ++ "_comparison.mp4" := by
    rw [String.append_assoc]
    exact append_ne_append_right id (by decide)
  have d4 : id ++ ".mp4" ≠ id := (string_self_ne_append id ".mp4" (by decide)).symm
  constructor
  · have hkeys : possible_keys_agg (id ++ "_comparison.mp4") =
        [id ++ "_comparison", id ++ "_comparison.mp4",
         id ++ "_comparison" ++ "_comparison.mp4", id] := by
      simp [possible_keys_agg, h1, h2]
    have hmiss : firstHit [(id ++ ".mp4", info)] (possible_keys_agg (id ++ "_comparison.mp4"))
        = none := by
      rw [hkeys]
      simp [firstHit, findKey, d1, d2, d3, d4]
    simp [decode_response, findSheet, hmiss]
  · have hstore : store_order_entry [] (id ++ ".mp4") info =
        [(id ++ ".mp4", info), (id ++ "_comparison.mp4", info)] := by
      simp [store_order_entry, h0, dictSet]
    have hhit : firstHit [(id ++ ".mp4", info), (id ++ "_comparison.mp4", info)]
        (possible_keys_simple (id ++ "_comparison.mp4")) = some info := by
      simp [possible_keys_simple, firstHit, findKey, d2]
    simp [decode_choice, findSheet, hstore, hhit]

/-- C6 witness: identity `"30s_2"`, the `deepsink` vs `self_forcing` pair. -/
theorem suffix_keyed_divergence_witness :
    decode_response [("deepsink_vs_self_forcing", [("30s_2" ++ ".mp4", OrderInfo.mk "deepsink" "self_forcing")])]
        "deepsink_vs_self_forcing" ("30s_2" ++ "_comparison.mp4") "A"
      = (none, none, "Video " ++ ("30s_2" ++ "_comparison.mp4") ++ " not found in order sheet") ∧
    decode_choice [("deepsink_vs_self_forcing", store_order_entry [] ("30s_2" ++ ".mp4") (OrderInfo.mk "deepsink" "self_forcing"))]
        "deepsink_vs_self_forcing" ("30s_2" ++ "_comparison.mp4") "A"
      = some ("deepsink", "self_forcing") :=
  suffix_keyed_divergence "30s_2" "deepsink_vs_self_forcing"
    (OrderInfo.mk "deepsink" "self_forcing") (by decide) (by decide) (by decide)

/-- Every entry the builder emits assigns the two labels to `deepsink` and
the baseline, in one of the two orders. -/
theorem order_sheet_entries_models (baseline_name : String)
    (videos : List (String × Bool)) (e : SheetEntry)
    (he : e ∈ order_sheet_entries baseline_name videos) :
    (e.model_a = "deepsink" ∧ e.model_b = baseline_name) ∨
    (e.model_a = baseline_name ∧ e.model_b = "deepsink") := by
  rcases List.mem_map.mp he with ⟨⟨fn, b⟩, hv, hev⟩
  cases b
  · subst hev
    exact Or.inr ⟨rfl, rfl⟩
  · subst hev
    exact Or.inl ⟨rfl, rfl⟩

/-- C1: encode/decode inverse law.  Build the order sheet for a comparison
pair with `create_comparison_set` and parse the written file back with
`parse_order_sheet`.  For any entry of the builder's order sheet whose
filename the parsed sheet resolves (the stripped candidate key misses, as
it does for every `<id>.mp4`-named video, and the filename itself is bound
to the entry's models), decoding the label the builder assigned to a model
`m ∈ {deepsink, baseline}` through `decode_response` returns `m`. -/
theorem encode_decode_inverse (comparison_name baseline_name : String)
    (videos : List (String × Bool)) (sheet : OrderMapping)
    (hsheet : sheet = parse_order_sheet
        (order_sheet_file_lines comparison_name baseline_name videos))
    (e : SheetEntry) (he : e ∈ order_sheet_entries baseline_name videos)
    (hfind : findKey sheet e.filename = some ⟨e.model_a, e.model_b⟩)
    (hstrip : findKey sheet (pyReplace e.filename ".mp4" "") = none)
    (m : String) (hm : m = "deepsink" ∨ m = baseline_name) :
    (decode_response [(comparison_name, sheet)] comparison_name e.filename
        (labelAssignedTo e m)).1 = some m := by
  have hfs : findSheet [(comparison_name, sheet)] comparison_name = some sheet := by
    simp [findSheet]
  have hhit : firstHit sheet (possible_keys_agg e.filename) = some ⟨e.model_a, e.model_b⟩ := by
    simp [possible_keys_agg, firstHit, hstrip, hfind]
  rw [decode_response_of_hit _ _ _ _ _ _ hfs hhit]
  by_cases hma : e.model_a = m
  · simp [labelAssignedTo, hma]
  · have hlab : labelAssignedTo e m = "B" := by simp [labelAssignedTo, hma]
    rw [hlab, if_neg (by decide), if_pos rfl]
    rcases order_sheet_entries_models baseline_name videos e he with ⟨ha, hb⟩ | ⟨ha, hb⟩
    · rcases hm with rfl | rfl
      · exact absurd ha hma
      · simp [hb]
    · rcases hm with rfl | rfl
      · simp [hb]
      · exact absurd ha hma

/-- C1 witness: the pair `deepsink_vs_self_forcing` with two videos, one
placed subject-left and one subject-right; the entry for `"30s_3.mp4"`
assigns `self_forcing` to label A, and decoding that label returns
`self_forcing`. -/
theorem encode_decode_inverse_witness :
    (decode_response
        [("deepsink_vs_self_forcing",
          parse_order_sheet (order_sheet_file_lines "deepsink_vs_self_forcing"
            "self_forcing" [("30s_2.mp4", true), ("30s_3.mp4", false)]))]
        "deepsink_vs_self_forcing" "30s_3.mp4"
        (labelAssignedTo ⟨"30s_3.mp4", "self_forcing", "deepsink"⟩ "self_forcing")).1
      = some "self_forcing" :=
  encode_decode_inverse "deepsink_vs_self_forcing" "self_forcing"
    [("30s_2.mp4", true), ("30s_3.mp4", false)] _ rfl
    ⟨"30s_3.mp4", "self_forcing", "deepsink"⟩ (by decide) (by decide) (by decide)
    "self_forcing" (Or.inr rfl)

/-- C2: the pair-name-splitting decode of `collect_github_results.py` agrees
with the order-sheet decoder `decode_response` on the chosen model for a
given `(pair, identity, choice)` exactly when the order-sheet entry assigned
the left (subject) model of the pair name to label A; whenever label A was
assigned the right model instead, the two decoders return different chosen
models. -/
theorem split_decode_agrees_iff (sheets : OrderSheets)
    (pair fn choice left right : String) (sheet : OrderMapping) (info : OrderInfo)
    (hsplit : pySplitStr pair "_vs_" = [left, right])
    (hsheet : findSheet sheets pair = some sheet)
    (hhit : firstHit sheet (possible_keys_agg fn) = some info)
    (hperm : (info.model_a = left ∧ info.model_b = right) ∨
             (info.model_a = right ∧ info.model_b = left))
    (hne : left ≠ right)
    (hchoice : choice = "A" ∨ choice = "B") :
    ((analyze_split_decode pair choice).map Prod.fst
      = (decode_response sheets pair fn choice).1 ↔ info.model_a = left) := by
  have hd := decode_response_of_hit sheets pair fn choice sheet info hsheet hhit
  rcases hchoice with rfl | rfl
  · rw [hd]
    simp only [if_pos rfl]
    simp [analyze_split_decode, hsplit, eq_comm]
  · rw [hd]
    rw [if_neg (by decide), if_pos rfl]
    simp only [analyze_split_decode, hsplit, or_true, if_true]
    rw [if_neg (show ¬(("B" : String) = "A") by decide)]
    rcases hperm with ⟨ha, hb⟩ | ⟨ha, hb⟩
    · simp [ha, hb]
    · simp only [Option.map_some', Option.some.injEq]
      constructor
      · intro h
        exact absurd (h ▸ hb) hne.symm
      · intro h
        exact absurd (ha ▸ h) hne.symm

/-- C2 witness: pair `deepsink_vs_self_forcing` whose entry assigns the left
model `deepsink` to label A — both decoders agree on choice "A". -/
theorem split_decode_agrees_iff_witness :
    ((analyze_split_decode "deepsink_vs_self_forcing" "A").map Prod.fst
      = (decode_response
          [("deepsink_vs_self_forcing", [("v1.mp4", OrderInfo.mk "deepsink" "self_forcing")])]
          "deepsink_vs_self_forcing" "v1.mp4" "A").1
      ↔ (OrderInfo.mk "deepsink" "self_forcing").model_a = "deepsink") :=
  split_decode_agrees_iff
    [("deepsink_vs_self_forcing", [("v1.mp4", OrderInfo.mk "deepsink" "self_forcing")])]
    "deepsink_vs_self_forcing" "v1.mp4" "A" "deepsink" "self_forcing"
    [("v1.mp4", OrderInfo.mk "deepsink" "self_forcing")]
    (OrderInfo.mk "deepsink" "self_forcing")
    (by decide) (by decide) (by decide) (Or.inl ⟨rfl, rfl⟩) (by decide) (Or.inl rfl)

/-- C7 counterexample: two successfully decoded choices from two different
comparison pairs.  Model `"b"` appears in the `method_preferences` report of
`aggregate_results.py` (it won once), but its reported total is the global
count of all decoded choices (2), not the number of choices it appeared in
(1) — the aggregator does not perform the claimed
`total[chosen] += 1; total[other] += 1` bookkeeping. -/
theorem bookkeeping_counterexample :
    mp_reported
      (process_responses
        [("deepsink_vs_a", [("v1.mp4", OrderInfo.mk "deepsink" "a")]),
         ("deepsink_vs_b", [("v1.mp4", OrderInfo.mk "b" "deepsink")])]
        "p1"
        [("deepsink_vs_a", [("v1.mp4", "A")]), ("deepsink_vs_b", [("v1.mp4", "A")])])
      "b" ∧
    mp_total
      (process_responses
        [("deepsink_vs_a", [("v1.mp4", OrderInfo.mk "deepsink" "a")]),
         ("deepsink_vs_b", [("v1.mp4", OrderInfo.mk "b" "deepsink")])]
        "p1"
        [("deepsink_vs_a", [("v1.mp4", "A")]), ("deepsink_vs_b", [("v1.mp4", "A")])])
      ≠
    mp_appearances
      (process_responses
        [("deepsink_vs_a", [("v1.mp4", OrderInfo.mk "deepsink" "a")]),
         ("deepsink_vs_b", [("v1.mp4", OrderInfo.mk "b" "deepsink")])]
        "p1"
        [("deepsink_vs_a", [("v1.mp4", "A")]), ("deepsink_vs_b", [("v1.mp4", "A")])])
      "b" := by
  decide

/-- C7 amended: the symmetric bookkeeping
`wins[chosen] += 1; total[chosen] += 1; total[other] += 1` is what
`analyze_results_with_order_sheets` of `collect_simple_fixed.py` (and the
identical loop of `collect_github_results.py`) performs; for any choice set
restricted to one comparison pair both models' totals equal the number of
choices, hence each other.  In `aggregate_results.py`'s
`method_preferences`, by contrast, each reported model's
`total_comparisons` is the global number of successfully decoded
responses. -/
theorem bookkeeping_amended (choices : List (String × String)) (left right : String)
    (hone : ∀ p ∈ choices, (p.1 = left ∧ p.2 = right) ∨ (p.1 = right ∧ p.2 = left))
    (hne : left ≠ right) :
    model_wins choices left + model_wins choices right = choices.length ∧
    model_total choices left = choices.length ∧
    model_total choices right = choices.length ∧
    model_total choices left = model_total choices right ∧
    (∀ rs : List DecodedResponse, mp_total rs = summary_successful rs) := by
  have main : ∀ cs : List (String × String),
      (∀ p ∈ cs, (p.1 = left ∧ p.2 = right) ∨ (p.1 = right ∧ p.2 = left)) →
      model_wins cs left + model_wins cs right = cs.length ∧
      model_total cs left = cs.length ∧
      model_total cs right = cs.length := by
    intro cs
    induction cs with
    | nil =>
      intro _
      simp [model_wins, model_total]
    | cons p rest ih =>
      intro h
      rw [List.forall_mem_cons] at h
      obtain ⟨hp, hrest⟩ := h
      obtain ⟨w, t1, t2⟩ := ih hrest
      rcases hp with ⟨h1, h2⟩ | ⟨h1, h2⟩ <;>
        simp only [model_wins, model_total, h1, h2, List.length_cons] <;>
        simp [hne, Ne.symm hne] <;>
        omega
  obtain ⟨w, t1, t2⟩ := main choices hone
  exact ⟨w, t1, t2, t1.trans t2.symm, fun rs => rfl⟩

/-- C7 amended witness: two choices of the pair `(deepsink, self_forcing)`,
one won by each side. -/
theorem bookkeeping_amended_witness :
    model_wins [("deepsink", "self_forcing"), ("self_forcing", "deepsink")] "deepsink" +
      model_wins [("deepsink", "self_forcing"), ("self_forcing", "deepsink")] "self_forcing"
      = 2 ∧
    model_total [("deepsink", "self_forcing"), ("self_forcing", "deepsink")] "deepsink" = 2 ∧
    model_total [("deepsink", "self_forcing"), ("self_forcing", "deepsink")] "self_forcing" = 2 ∧
    model_total [("deepsink", "self_forcing"), ("self_forcing", "deepsink")] "deepsink"
      = model_total [("deepsink", "self_forcing"), ("self_forcing", "deepsink")] "self_forcing" ∧
    (∀ rs : List DecodedResponse, mp_total rs = summary_successful rs) :=
  bookkeeping_amended [("deepsink", "self_forcing"), ("self_forcing", "deepsink")]
    "deepsink" "self_forcing" (by decide) (by decide)

/-- C8: win-rate bounds.  For the bookkeeping of the collectors, for
`method_preferences` of `aggregate_results.py`, and for the per-pair
`method_a_wins / (method_a_wins + method_b_wins)` rates, every win rate
lies in `[0, 1]`; and a zero total yields the rate 0 by definition rather
than a division error. -/
theorem win_rate_bounds :
    (∀ (choices : List (String × String)) (m : String),
      0 ≤ win_rate (model_wins choices m) (model_total choices m) ∧
      win_rate (model_wins choices m) (model_total choices m) ≤ 1) ∧
    (∀ (rs : List DecodedResponse) (m : String),
      0 ≤ win_rate (mp_wins rs m) (mp_total rs) ∧
      win_rate (mp_wins rs m) (mp_total rs) ≤ 1) ∧
    (∀ a_wins b_wins : Nat,
      0 ≤ win_rate a_wins (a_wins + b_wins) ∧
      win_rate a_wins (a_wins + b_wins) ≤ 1) ∧
    (∀ wins : Nat, win_rate wins 0 = 0) := by
  refine ⟨fun choices m => ⟨win_rate_nonneg _ _, ?_⟩,
          fun rs m => ⟨win_rate_nonneg _ _, ?_⟩,
          fun a_wins b_wins => ⟨win_rate_nonneg _ _, ?_⟩,
          fun wins => rfl⟩
  · exact win_rate_le_one _ _ (model_wins_le_model_total choices m)
  · exact win_rate_le_one _ _ (List.countP_le_length _)
  · exact win_rate_le_one _ _ (Nat.le_add_right _ _)

/-- C9: the decoder's three non-success outcomes — missing order sheet,
identity absent from the sheet, and a choice outside `{"A","B"}` — are
pairwise distinct status values, all distinct from `"success"`;
`decode_response` always returns one of the four shapes as a value (it is a
total function, not an exception); and any response carrying a non-success
status contributes nothing to the win/total counts of the aggregation. -/
theorem decode_error_kinds :
    (∀ fn choice : String,
      ("No order sheet found" : String) ≠ "Video " ++ fn ++ " not found in order sheet" ∧
      ("No order sheet found" : String) ≠ "Invalid choice: " ++ choice ∧
      "Video " ++ fn ++ " not found in order sheet" ≠ "Invalid choice: " ++ choice ∧
      ("No order sheet found" : String) ≠ "success" ∧
      "Video " ++ fn ++ " not found in order sheet" ≠ "success" ∧
      "Invalid choice: " ++ choice ≠ "success") ∧
    (∀ (sheets : OrderSheets) (pair fn choice : String),
      decode_response sheets pair fn choice = (none, none, "No order sheet found") ∨
      decode_response sheets pair fn choice
        = (none, none, "Video " ++ fn ++ " not found in order sheet") ∨
      decode_response sheets pair fn choice = (none, none, "Invalid choice: " ++ choice) ∨
      (decode_response sheets pair fn choice).2.2 = "success") ∧
    (∀ (rs : List DecodedResponse) (r : DecodedResponse) (m : String),
      r.decode_status ≠ "success" →
        mp_wins (rs ++ [r]) m = mp_wins rs m ∧
        mp_total (rs ++ [r]) = mp_total rs ∧
        mp_appearances (rs ++ [r]) m = mp_appearances rs m) := by
  refine ⟨?_, ?_, ?_⟩
  · intro fn choice
    exact ⟨string_ne_of_head _ _ 'N' 'V' rfl rfl (by decide),
           string_ne_of_head _ _ 'N' 'I' rfl rfl (by decide),
           string_ne_of_head _ _ 'V' 'I' rfl rfl (by decide),
           string_ne_of_head _ _ 'N' 's' rfl rfl (by decide),
           string_ne_of_head _ _ 'V' 's' rfl rfl (by decide),
           string_ne_of_head _ _ 'I' 's' rfl rfl (by decide)⟩
  · intro sheets pair fn choice
    rcases hfs : findSheet sheets pair with _ | sheet
    · left
      simp [decode_response, hfs]
    · rcases hh : firstHit sheet (possible_keys_agg fn) with _ | info
      · right; left
        simp [decode_response, hfs, hh]
      · by_cases hA : choice = "A"
        · right; right; right
          simp [decode_response, hfs, hh, hA]
        · by_cases hB : choice = "B"
          · right; right; right
            simp [decode_response, hfs, hh, hA, hB]
          · right; right; left
            simp [decode_response, hfs, hh, hA, hB]
  · intro rs r m h
    have hb : (r.decode_status == "success") = false := beq_eq_false_iff_ne.mpr h
    have hs : successful_responses (rs ++ [r]) = successful_responses rs := by
      simp [successful_responses, List.filter_append, List.filter_cons, hb]
    exact ⟨by simp [mp_wins, hs], by simp [mp_total, hs], by simp [mp_appearances, hs]⟩

/-- C9 witness: appending a response with the missing-sheet failure status
leaves the win count of `deepsink` unchanged. -/
theorem decode_error_kinds_witness :
    mp_wins ([] ++ [DecodedResponse.mk "p1" "c" "v" "A" none none "No order sheet found"])
        "deepsink"
      = mp_wins [] "deepsink" :=
  ((decode_error_kinds.2.2 []
    (DecodedResponse.mk "p1" "c" "v" "A" none none "No order sheet found")
    "deepsink") (by decide)).1

/-- C10 counterexample: one response whose decode fails (no order sheet for
the pair), processed by `process_user_responses` of
`aggregate_results_from_github.py`: the returned processed-response list is
empty, so the failure is silently dropped before aggregation instead of
being kept and counted. -/
theorem failure_propagation_counterexample :
    process_user_responses [] "p1" [("pairX", [("v1.mp4", ResponseData.raw "A")])] = [] ∧
    (decode_response [] "pairX" "v1.mp4" "A").2.2 = "No order sheet found" := by
  decide

/-- C10 amended: in `aggregate_results.py`, `process_single_result_file`
keeps one record per input item whatever its decode status (no per-item
failure aborts the batch or is dropped), and the summary's successful and
failed counts add up to the total; in `aggregate_results_from_github.py`,
`process_user_responses` keeps only records whose decode status is
`"success"`, dropping failed decodes from the processed list. -/
theorem failure_propagation_amended :
    (∀ (sheets : OrderSheets) (pid : String)
        (responses : List (String × List (String × String))),
      (process_responses sheets pid responses).length
        = (responses.map fun cv => cv.2.length).sum ∧
      summary_successful (process_responses sheets pid responses)
          + summary_failed (process_responses sheets pid responses)
        = summary_total (process_responses sheets pid responses)) ∧
    (∀ (sheets : OrderSheets) (pid : String)
        (responses : List (String × List (String × ResponseData))),
      (process_user_responses sheets pid responses).all
        (fun r => r.decode_status == "success") = true) := by
  constructor
  · intro sheets pid responses
    constructor
    · simp [process_responses, List.length_flatMap, Function.comp_def]
    · have hle : (successful_responses (process_responses sheets pid responses)).length
          ≤ (process_responses sheets pid responses).length := List.length_filter_le _ _
      simp only [summary_successful, summary_failed, summary_total]
      omega
  · intro sheets pid responses
    rw [List.all_eq_true]
    intro r hr
    simp only [process_user_responses, List.mem_flatMap] at hr
    obtain ⟨cv, _, vr, _, hr⟩ := hr
    obtain ⟨vfn, vd⟩ := vr
    cases vd with
    | raw s =>
      dsimp only at hr
      split_ifs at hr with h1 h2
      · rw [List.mem_singleton] at hr
        subst hr
        simp [h2]
      · exact absurd hr (List.not_mem_nil r)
      · exact absurd hr (List.not_mem_nil r)
    | answers qs =>
      dsimp only at hr
      rw [List.mem_flatMap] at hr
      obtain ⟨qc, _, hr⟩ := hr
      split_ifs at hr with h1 h2
      · rw [List.mem_singleton] at hr
        subst hr
        simp [h2]
      · exact absurd hr (List.not_mem_nil r)
      · exact absurd hr (List.not_mem_nil r)
